import Mathlib

/-!
Verification development for the CSG object-generation repository:
a shallow embedding of the sandboxed code executor (`execute_code.py`,
`generate_objects.py`), the multi-view renderer's mesh normalization
(`render_image.py`), the OBJ vertex/face text export
(`sphere_and_cube.py`, `create.py`) and the refinement-loop controller
(`generate_object.py`), together with theorems settling the spec's claims.

The file is organized as definitions first (faithful translations of the
Python source, with external services — the geometry kernel, the renderer,
the model API — abstracted as parameters), followed by the theorems.
-/

/-! ## Definitions -/

/-! ### Decimal numerals over `List Char`

`str(n)` in the Python source renders iteration indices and face indices as
standard decimal numerals.  We embed that rendering as `natChars`
(fuel-structured so it reduces definitionally) together with a digit-string
value function; the round-trip yields injectivity, needed to show that
iteration-indexed artifact paths are pairwise distinct. -/

def digitChar (d : Nat) : Char := Char.ofNat (48 + d)

def natCharsAux : Nat → Nat → List Char → List Char
  | 0, _, acc => acc
  | fuel + 1, n, acc =>
    if n = 0 then acc else natCharsAux fuel (n / 10) (digitChar (n % 10) :: acc)

/-- Standard decimal rendering of a natural number, as the character list
of Python's `str(n)`. -/
def natChars (n : Nat) : List Char := if n = 0 then ['0'] else natCharsAux n n []

def charDigit (c : Char) : Nat := c.toNat - 48

/-- Numeric value of a digit string (standard left fold). -/
def charsVal (a : Nat) (l : List Char) : Nat :=
  l.foldl (fun x c => x * 10 + charDigit c) a

/-! ### The sandboxed code executor of `execute_code.py`

`execute_code(code)` runs the program text with `exec(code, namespace)` where
`namespace = {}` is a fresh empty dict, then requires a callable binding named
`create_object` and calls it.  The Python-level behavior of an arbitrary
program text is external to this repository, so a program is embedded by its
`exec` semantics: a function from the initial namespace to either an
exception or a final namespace.  Values are classified by what the executor
inspects: solid-object handles of the geometry kernel (type parameter `M`),
callables (with the result of calling them with no arguments), module
handles, and anything else. -/

namespace ExecuteCode

inductive PyVal (M : Type) where
  | manifold (m : M)
  | callable (r : Except String (PyVal M))
  | moduleHandle (name : String)
  | other

def PyVal.isCallable {M : Type} : PyVal M → Bool
  | PyVal.callable _ => true
  | _ => false

/-- A program text, embedded by its `exec` semantics: from the namespace it
is started in, either an exception message or the final namespace. -/
structure PyProgram (M : Type) where
  run : List (String × PyVal M) → Except String (List (String × PyVal M))

/-- Failure modes of `execute_code`: an exception raised by running the text
or by calling `create_object` (which propagates uncaught), versus the
executor's own `ValueError` demanding a callable `create_object` — the
spec's `ExecutionError` and `DefinitionError` respectively. -/
inductive ExecuteError where
  | raised (msg : String)
  | definitionError
deriving DecidableEq

/-- The namespace `execute_code` seeds `exec` with: the literal `{}` of
`execute_code.py` line 5 — no bindings at all. -/
def initial_namespace (M : Type) : List (String × PyVal M) := []

/-- Dict lookup (first match). -/
def nsLookup {M : Type} : List (String × PyVal M) → String → Option (PyVal M)
  | [], _ => none
  | (n, v) :: rest, key => if n = key then some v else nsLookup rest key

/-- The check-and-call tail of `execute_code`: raise `ValueError` unless the
looked-up `create_object` binding is callable, then call it (a raise from
the call propagates) and return its result unchanged. -/
def callCreateObject {M : Type} : Option (PyVal M) → Except ExecuteError (PyVal M)
  | some (PyVal.callable (Except.error e)) => Except.error (ExecuteError.raised e)
  | some (PyVal.callable (Except.ok v)) => Except.ok v
  | _ => Except.error ExecuteError.definitionError

/-- Embedding of `execute_code` (`execute_code.py` lines 3-13): run the text
in the fresh namespace, raise `ValueError` unless a callable `create_object`
is bound, then call it and return its result unchanged. -/
def execute_code {M : Type} (p : PyProgram M) : Except ExecuteError (PyVal M) :=
  match p.run (initial_namespace M) with
  | Except.error e => Except.error (ExecuteError.raised e)
  | Except.ok ns => callCreateObject (nsLookup ns "create_object")

/-- Modelled from the spec: the namespace the spec's §4.1 executor contract
seeds — exactly the geometry-kernel module handle and the numeric-array
module handle. -/
def spec_seed_namespace (M : Type) : List (String × PyVal M) :=
  [("manifold3d", PyVal.moduleHandle "manifold3d"),
   ("np", PyVal.moduleHandle "numpy")]

/-- Modelled from the spec: the §4.1 executor, identical to `execute_code`
except that it runs the text in the spec's seeded namespace.  Used only to
compare the spec's seeding claim against the source's empty namespace. -/
def execute_spec {M : Type} (p : PyProgram M) : Except ExecuteError (PyVal M) :=
  match p.run (spec_seed_namespace M) with
  | Except.error e => Except.error (ExecuteError.raised e)
  | Except.ok ns => callCreateObject (nsLookup ns "create_object")

/-- Demo program binding no `create_object`: runs fine and binds one plain
value. -/
def prog_no_create : PyProgram Unit :=
  ⟨fun _ => Except.ok [("answer", PyVal.other)]⟩

/-- Demo program that reads the geometry-kernel module handle from its
namespace, as generated code of the form
`create_object = lambda: manifold3d.Manifold.sphere(1)` would: it raises a
`NameError` when the handle is absent. -/
def kernelProbe : PyProgram Unit :=
  ⟨fun ns =>
    match nsLookup ns "manifold3d" with
    | some _ =>
      Except.ok [("create_object", PyVal.callable (Except.ok (PyVal.manifold ())))]
    | none => Except.error "NameError: name manifold3d is not defined"⟩

end ExecuteCode

/-! ### The batch executor of `generate_objects.py`

`execute_object_code` seeds a local namespace with the `Manifold` class and
the `np` module, but runs `exec(code, globals(), local_namespace)`, so the
host module's entire global namespace is also visible to the executed code.
It then scans the local namespace for the first Manifold instance (skipping
the name `Manifold`), falling back to calling each callable in turn, and
applies the kernel's `fix()` to the found object when it is not empty.
The geometry kernel is external, so its operations are a parameter. -/

namespace GenerateObjects

/-- The geometry-kernel operations `execute_object_code` uses: the result of
the zero-argument `Manifold()` constructor, the `is_empty` test and the
`fix` repair operation. -/
structure Kernel (M : Type) where
  empty : M
  is_empty : M → Bool
  fix : M → M

/-- Values as classified by the scan in `execute_object_code`: the
`Manifold` class itself (callable, constructs the empty manifold), the
(non-callable) `np` module, Manifold instances, other callables with the
result of calling them, and anything else. -/
inductive GVal (M : Type) where
  | manifoldClass
  | npModule
  | manifold (m : M)
  | callable (r : Except String (GVal M))
  | other

/-- A program text for the batch executor, embedded by its `exec` semantics:
from the visible bindings to an exception or the final local namespace. -/
structure GProgram (M : Type) where
  run : List (String × GVal M) → Except String (List (String × GVal M))

/-- The local namespace seeded in `generate_objects.py` lines 176-179:
`{'Manifold': Manifold, 'np': np}`. -/
def local_seed (M : Type) : List (String × GVal M) :=
  [("Manifold", GVal.manifoldClass), ("np", GVal.npModule)]

/-- Calling a value with no arguments: `some` result when the value is
callable (the `Manifold` class constructs the kernel's empty manifold),
`none` when it is not callable. -/
def callResult {M : Type} (K : Kernel M) : GVal M → Option (Except String (GVal M))
  | GVal.callable r => some r
  | GVal.manifoldClass => some (Except.ok (GVal.manifold K.empty))
  | _ => none

/-- First scan of `execute_object_code`: the first binding that is a
Manifold instance and is not named `Manifold`. -/
def findInstance {M : Type} : List (String × GVal M) → Option M
  | [] => none
  | (n, v) :: rest =>
    match v with
    | GVal.manifold m => if n = "Manifold" then findInstance rest else some m
    | _ => findInstance rest

/-- Second scan: call each callable not named `Manifold`; take the first
whose call returns a Manifold instance, skipping calls that raise or return
something else. -/
def findCallableResult {M : Type} (K : Kernel M) : List (String × GVal M) → Option M
  | [] => none
  | (n, v) :: rest =>
    if n = "Manifold" then findCallableResult K rest
    else
      match callResult K v with
      | some (Except.ok (GVal.manifold m)) => some m
      | some _ => findCallableResult K rest
      | none => findCallableResult K rest

/-- The object located by the two scans, instance scan first. -/
def foundObject {M : Type} (K : Kernel M) (ns : List (String × GVal M)) : Option M :=
  match findInstance ns with
  | some m => some m
  | none => findCallableResult K ns

/-- The validation step of `generate_objects.py` lines 211-214: apply the
kernel's `fix` when the found object is not empty, otherwise leave it. -/
def fixup {M : Type} (K : Kernel M) (m : M) : M :=
  if K.is_empty m then m else K.fix m

/-- The tail of `execute_object_code` after the scan: fail when no Manifold
object was found, otherwise return the (conditionally repaired) object. -/
def finishExec {M : Type} (K : Kernel M) : Option M → Except String M
  | none => Except.error "Could not find a Manifold object in the executed code"
  | some m => Except.ok (fixup K m)

/-- Embedding of `execute_object_code` (`generate_objects.py` lines
163-225): run the code with the seeded locals and the host globals visible,
scan for a Manifold object, fail when none is found, and return the
(conditionally repaired) object. -/
def execute_object_code {M : Type} (K : Kernel M)
    (hostGlobals : List (String × GVal M)) (p : GProgram M) : Except String M :=
  match p.run (local_seed M ++ hostGlobals) with
  | Except.error e => Except.error e
  | Except.ok ns => finishExec K (foundObject K ns)

/-- Demo kernel over `Nat`: `0` is the empty manifold and `fix` is an
observable repair (successor), so applying or skipping repair is visible in
the result. -/
def natKernel : Kernel Nat :=
  ⟨0, fun m => m == 0, fun m => m + 1⟩

/-- Demo program for `execute_code` whose `create_object` returns the
non-degenerate solid `5` of the demo kernel. -/
def prog_ret_five : ExecuteCode.PyProgram Nat :=
  ⟨fun _ =>
    Except.ok [("create_object",
      ExecuteCode.PyVal.callable (Except.ok (ExecuteCode.PyVal.manifold 5)))]⟩

/-- Demo program for the batch executor binding the non-degenerate solid `7`
to a variable. -/
def gprog_bind_seven : GProgram Nat :=
  ⟨fun _ => Except.ok (local_seed Nat ++ [("result", GVal.manifold 7)])⟩

/-- Demo program that reads the host-module global `client` (the Anthropic
API client of `generate_objects.py`) and succeeds only when it is visible. -/
def gprog_read_client : GProgram Nat :=
  ⟨fun ns =>
    match ns.lookup "client" with
    | some _ => Except.ok (local_seed Nat ++ [("result", GVal.manifold 3)])
    | none => Except.error "NameError: name client is not defined"⟩

end GenerateObjects

/-! ### The renderer's mesh normalization and view set (`render_image.py`)

`render_mesh_views_from_arrays` centers the vertex array at the mean vertex,
scales by the maximum bounding-box extent, and renders six views named
`pos_x` … `neg_z`.  Real-vector arithmetic is embedded over `ℚ`. -/

namespace RenderImage

abbrev V3 := ℚ × ℚ × ℚ

/-- The six view names, in the order of the `views` dict of
`render_mesh_views_from_arrays`. -/
def viewNames : List String :=
  ["pos_x", "neg_x", "pos_y", "neg_y", "pos_z", "neg_z"]

/-- The image files one render call writes into its output directory. -/
def renderedImageFiles : List String := viewNames.map (fun v => v ++ ".jpeg")

def vsum : List V3 → V3
  | [] => (0, 0, 0)
  | v :: rest =>
    let s := vsum rest
    (v.1 + s.1, v.2.1 + s.2.1, v.2.2 + s.2.2)

/-- Componentwise mean vertex position (`np.mean(vertices, axis=0)`). -/
def vmean (vs : List V3) : V3 :=
  let s := vsum vs
  let n : ℚ := (vs.length : ℚ)
  (s.1 / n, s.2.1 / n, s.2.2 / n)

/-- Maximum of a coordinate list (`arr.max()`; `0` on the empty array, which
numpy rejects — all uses are on nonempty meshes). -/
def lmax : List ℚ → ℚ
  | [] => 0
  | x :: xs => xs.foldl max x

def lmin : List ℚ → ℚ
  | [] => 0
  | x :: xs => xs.foldl min x

/-- Centering step: `vertices = vertices - center`. -/
def centered (vs : List V3) : List V3 :=
  let c := vmean vs
  vs.map (fun v => (v.1 - c.1, v.2.1 - c.2.1, v.2.2 - c.2.2))

def extent (vs : List V3) (proj : V3 → ℚ) : ℚ :=
  lmax (vs.map proj) - lmin (vs.map proj)

/-- The maximum bounding-box extent
`np.max(vertices.max(axis=0) - vertices.min(axis=0))`. -/
def maxDim (vs : List V3) : ℚ :=
  max (max (extent vs (fun v => v.1)) (extent vs (fun v => v.2.1)))
    (extent vs (fun v => v.2.2))

/-- The normalization `render_mesh_views_from_arrays` applies to the vertex
array before registering the mesh (lines 23-29): translate by the negated
mean, then divide by the maximum extent of the centered array. -/
def normalizeVertices (vs : List V3) : List V3 :=
  let sh := centered vs
  let d := maxDim sh
  sh.map (fun v => (v.1 / d, v.2.1 / d, v.2.2 / d))

/-- Translation plus positive uniform scaling of a vertex. -/
def affineMap (s : ℚ) (t : V3) (v : V3) : V3 :=
  (s * v.1 + t.1, s * v.2.1 + t.2.1, s * v.2.2 + t.2.2)

end RenderImage

/-! ### The refinement-loop controller (`generate_object.py`)

The controller's single `for iteration in range(max_iterations)` loop is
embedded as a structurally recursive function on the remaining iteration
budget, emitting the observable events of each pass — the EXECUTE, RENDER
and PROPOSE calls and every file write with its path and content.  The
Executor, Proposer and kernel volume computations are oracles supplied in a
`LoopEnv`.  File paths are `List Char` so that path equality is plain list
equality. -/

namespace GenerateObject

/-- Filename-to-view mapping of `load_images_from_directory`: only the three
uncommented entries of the source dict (the `neg_*` lines are commented
out). -/
def filename_to_label : List (String × String) :=
  [("pos_x.jpeg", "right"), ("pos_y.jpeg", "top"), ("pos_z.jpeg", "front")]

/-- View-to-filename mapping of `load_images_from_directory`, all six
directions. -/
def label_to_filename : List (String × String) :=
  [("right", "pos_x.jpeg"), ("left", "neg_x.jpeg"), ("top", "pos_y.jpeg"),
   ("bottom", "neg_y.jpeg"), ("front", "pos_z.jpeg"), ("back", "neg_z.jpeg")]

/-- Embedding of `load_images_from_directory` (lines 187-232): fail when the
directory is missing, fail at the first entry of `filename_to_label` whose
file does not exist, otherwise return the checked paths and the full
label-to-filename mapping.  Directory and file existence are oracles. -/
def load_images_from_directory (dir : String) (dirExists : Bool)
    (fileExists : String → Bool) :
    Except String (List String × List (String × String)) :=
  if dirExists = false then Except.error ("Image directory not found: " ++ dir)
  else
    match filename_to_label.find? (fun fl => ! fileExists (dir ++ "/" ++ fl.1)) with
    | some fl => Except.error ("Required image not found: " ++ dir ++ "/" ++ fl.1)
    | none =>
      Except.ok (filename_to_label.map (fun fl => dir ++ "/" ++ fl.1),
        label_to_filename)

/-- The views `make_code_edit` actually sends to the model, for both the
target and the current result (`view_labels` in the source). -/
def view_labels : List String := ["front", "top", "right"]

abbrev Path := List Char

/-- The canonical current-program file `code.py`. -/
def canonicalPath : Path := "code.py".data

/-- The six view names as path fragments. -/
def viewsC : List Path := RenderImage.viewNames.map String.data

/-- Per-iteration artifact directory `objects/temp_<iteration>`. -/
def iterDir (i : Nat) : Path := "objects/temp_".data ++ natChars i

/-- Path of one rendered view image of iteration `i`. -/
def imagePath (i : Nat) (v : Path) : Path :=
  iterDir i ++ "/images/".data ++ v ++ ".jpeg".data

/-- Path of the volumes/error record of iteration `i`. -/
def volumesPath (i : Nat) : Path := iterDir i ++ "/volumes.txt".data

/-- Observable events of a controller run. -/
inductive Ev where
  | execCall (code : String)
  | renderCall (iter : Nat)
  | proposeCall (iter : Nat) (code : String)
  | writeFile (path : Path) (content : String)
deriving DecidableEq

/-- Terminal states of the loop. -/
inductive Outcome where
  | converged
  | exhausted
  | failed
deriving DecidableEq

/-- The controller's external collaborators: the Executor, the Proposer
(indexed by iteration, determinizing the model's replies along the run), and
the kernel volume computations used for the diagnostic error record. -/
structure LoopEnv (M : Type) where
  exec : String → Except String M
  propose : Nat → String → Except String String
  volume : M → ℚ
  symErr : M → ℚ
  targetVolume : ℚ

/-- Placeholder content of a screenshot file (binary image data is opaque to
the controller). -/
def screenshotContent : String := "<screenshot>"

/-- Content of `volumes.txt` as written at the end of an accepted pass. -/
def volumesContent {M : Type} (env : LoopEnv M) (m : M) : String :=
  let vol := env.volume m
  let tvol := env.targetVolume
  let err := env.symErr m
  s!"Created object volume: {vol}\nTarget object volume: {tvol}\nError: {err}\n"

/-- The six screenshot writes of one render call. -/
def renderWrites (i : Nat) : List Ev :=
  viewsC.map (fun v => Ev.writeFile (imagePath i v) screenshotContent)

/-- One pass of the loop body up to and including the PROPOSE call. -/
def passHead (i : Nat) (code : String) : List Ev :=
  Ev.execCall code :: Ev.renderCall i :: renderWrites i ++ [Ev.proposeCall i code]

/-- Embedding of the `for iteration in range(max_iterations)` loop of `main`
(lines 252-297), by recursion on the remaining iteration budget: execute the
current program (any failure ends the run as `failed`), render the views of
iteration `iter`, propose an edit (failure ends the run as `failed`);
identical text converges, otherwise the new text is written to `code.py`,
the volumes record of this iteration is written, and the loop continues. -/
def loopAux {M : Type} (env : LoopEnv M) :
    Nat → Nat → String → List Ev × Outcome
  | 0, _, _ => ([], Outcome.exhausted)
  | r + 1, iter, code =>
    match env.exec code with
    | Except.error _ => ([Ev.execCall code], Outcome.failed)
    | Except.ok m =>
      match env.propose iter code with
      | Except.error _ => (passHead iter code, Outcome.failed)
      | Except.ok newCode =>
        if newCode = code then (passHead iter code, Outcome.converged)
        else
          let rest := loopAux env r (iter + 1) newCode
          (passHead iter code ++
            (Ev.writeFile canonicalPath newCode ::
              Ev.writeFile (volumesPath iter) (volumesContent env m) :: rest.1),
            rest.2)

/-- A full controller run: the INIT write of the initial program to the
canonical `code.py`, then the loop with the full budget. -/
def mainRun {M : Type} (env : LoopEnv M) (maxIter : Nat) (code0 : String) :
    List Ev × Outcome :=
  let r := loopAux env maxIter 0 code0
  (Ev.writeFile canonicalPath code0 :: r.1, r.2)

/-- Return value of `main` as a function of the loop outcome.  The single
`try` around the whole loop catches every exception; its first
`except Exception` handler only prints and falls through, so control reaches
the final `return 0` for every outcome, `failed` included.  The second
`except Exception` handler (`return 1`, lines 309-311) is unreachable dead
code. -/
def main_return_value : Outcome → Nat
  | Outcome.converged => 0
  | Outcome.exhausted => 0
  | Outcome.failed => 0

/-- Process exit code of the whole script: a missing `api_key.txt` raises at
module import time, and a missing `initial_code.py` raises a `NameError`
inside the first except handler (the loop variable `iteration` is unbound),
both ending the process non-zero; otherwise the process exits with `main`'s
return value. -/
def script_exit_code {M : Type} (env : LoopEnv M) (apiKeyPresent : Bool)
    (initialCode : Option String) (maxIter : Nat) : Nat :=
  if apiKeyPresent = false then 1
  else
    match initialCode with
    | none => 1
    | some c0 => main_return_value (mainRun env maxIter c0).2

/-- An accepted COMPARE transition is observable as a write to the canonical
`code.py` inside the loop. -/
def isAcceptWrite : Ev → Bool
  | Ev.writeFile p _ => p == canonicalPath
  | _ => false

def acceptedCount (evs : List Ev) : Nat := evs.countP isAcceptWrite

def isExecEv : Ev → Bool
  | Ev.execCall _ => true
  | _ => false

def isRenderEv : Ev → Bool
  | Ev.renderCall _ => true
  | _ => false

def isProposeEv : Ev → Bool
  | Ev.proposeCall _ _ => true
  | _ => false

/-- The path of a write event outside the canonical program file. -/
def artifactPath : Ev → Option Path
  | Ev.writeFile p _ => if p == canonicalPath then none else some p
  | _ => none

def artifactPaths (evs : List Ev) : List Path := evs.filterMap artifactPath

/-- Demo environment whose Executor always fails (the spec's scenario of an
initial program whose `create_object` raises). -/
def failEnv : LoopEnv Unit :=
  ⟨fun _ => Except.error "ExecutionError: create_object raised",
   fun _ c => Except.ok (c ++ "x"), fun _ => 0, fun _ => 0, 0⟩

/-- Demo environment whose Proposer always returns the input text
unchanged. -/
def echoEnv : LoopEnv Unit :=
  ⟨fun _ => Except.ok (), fun _ c => Except.ok c, fun _ => 0, fun _ => 0, 0⟩

/-- Demo environment whose Proposer always returns a program textually
different from its input. -/
def growEnv : LoopEnv Unit :=
  ⟨fun _ => Except.ok (), fun _ c => Except.ok (c ++ "x"),
   fun _ => 0, fun _ => 0, 0⟩

end GenerateObject

/-! ### The OBJ vertex/face text export (`sphere_and_cube.py`, `create.py`)

Both scripts write a mesh as one `v x y z` line per vertex and one
`f i j k` line per face, with 1-based indices (`face[k]+1`).  A file is the
list of written lines; each line is its character list.  A small parser
(line classification by leading token, face-index extraction by splitting on
spaces) re-reads the written text. -/

namespace SphereAndCube

abbrev Tri := Nat × Nat × Nat

/-- Rendering of one float coordinate; its characters are opaque to the
parser (never a newline, and never inspected). -/
def ratChars (q : ℚ) : List Char := (toString q).data

/-- One written vertex line `v x y z`. -/
def vertexLine (v : RenderImage.V3) : List Char :=
  'v' :: ' ' ::
    (ratChars v.1 ++ ' ' :: (ratChars v.2.1 ++ ' ' :: ratChars v.2.2))

/-- One written face line `f i j k` with 1-based indices
(`f.write(f"f {face[0]+1} {face[1]+1} {face[2]+1}\n")`). -/
def faceLine (t : Tri) : List Char :=
  'f' :: ' ' ::
    (natChars (t.1 + 1) ++ ' ' ::
      (natChars (t.2.1 + 1) ++ ' ' :: natChars (t.2.2 + 1)))

/-- The written OBJ file: all vertex lines, then all face lines. -/
def write_obj (vs : List RenderImage.V3) (fs : List Tri) : List (List Char) :=
  vs.map vertexLine ++ fs.map faceLine

/-- Splitting a character list at every occurrence of a separator. -/
def splitOnChar (sep : Char) : List Char → List (List Char)
  | [] => [[]]
  | c :: rest =>
    match splitOnChar sep rest with
    | [] => [[c]]
    | h :: t => if c = sep then [] :: h :: t else (c :: h) :: t

/-- Parsing a decimal numeral token. -/
def parseNat (l : List Char) : Option Nat :=
  if l ≠ [] ∧ l.all Char.isDigit then some (charsVal 0 l) else none

def isVertexLine : List Char → Bool
  | 'v' :: ' ' :: _ => true
  | _ => false

def isFaceLine : List Char → Bool
  | 'f' :: ' ' :: _ => true
  | _ => false

/-- The face indices a parser reads back from one line: the
whitespace-separated numerals after the `f` marker (`none` for any other
line). -/
def lineFaceIndices (l : List Char) : Option (List Nat) :=
  match l with
  | 'f' :: ' ' :: rest => (splitOnChar ' ' rest).mapM parseNat
  | _ => none

/-- Vertex count a parser obtains from the written lines. -/
def parsedVertexCount (ls : List (List Char)) : Nat := ls.countP isVertexLine

/-- Face count a parser obtains from the written lines. -/
def parsedFaceCount (ls : List (List Char)) : Nat := ls.countP isFaceLine

end SphereAndCube

/-! ## Theorems -/

/-! ### Decimal numeral lemmas -/

theorem charDigit_digitChar {d : Nat} (h : d < 10) : charDigit (digitChar d) = d := by
  interval_cases d <;> decide

theorem isDigit_digitChar {d : Nat} (h : d < 10) : (digitChar d).isDigit = true := by
  interval_cases d <;> decide

theorem natCharsAux_append (fuel n : Nat) (acc : List Char) (h : n ≤ fuel) :
    natCharsAux fuel n acc = natCharsAux fuel n [] ++ acc := by
  induction fuel generalizing n acc with
  | zero => simp [natCharsAux]
  | succ f ih =>
    by_cases hn : n = 0
    · simp [natCharsAux, hn]
    · have hle : n / 10 ≤ f := by
        have : n / 10 < n := Nat.div_lt_self (Nat.pos_of_ne_zero hn) (by decide)
        omega
      rw [natCharsAux, natCharsAux, if_neg hn, if_neg hn,
        ih (n / 10) _ hle, ih (n / 10) [digitChar (n % 10)] hle, List.append_assoc]
      rfl

theorem natCharsAux_zero (fuel : Nat) : natCharsAux fuel 0 [] = [] := by
  cases fuel <;> simp [natCharsAux]

theorem natCharsAux_ne_nil (fuel n : Nat) (hn : n ≠ 0) (h : n ≤ fuel) :
    natCharsAux fuel n [] ≠ [] := by
  cases fuel with
  | zero => omega
  | succ f =>
    rw [natCharsAux, if_neg hn,
      natCharsAux_append f (n / 10) [digitChar (n % 10)]
        (by have : n / 10 < n := Nat.div_lt_self (Nat.pos_of_ne_zero hn) (by decide); omega)]
    simp

theorem charsVal_natCharsAux (fuel n : Nat) (hn : n ≠ 0) (h : n ≤ fuel) (a : Nat) :
    charsVal a (natCharsAux fuel n []) =
      a * 10 ^ (natCharsAux fuel n []).length + n := by
  induction fuel generalizing n a with
  | zero => omega
  | succ f ih =>
    have hmod : n % 10 < 10 := Nat.mod_lt _ (by decide)
    have hdivlt : n / 10 < n := Nat.div_lt_self (Nat.pos_of_ne_zero hn) (by decide)
    rw [natCharsAux, if_neg hn,
      natCharsAux_append f (n / 10) [digitChar (n % 10)] (by omega)]
    by_cases hq : n / 10 = 0
    · have hsmall : n % 10 = n := by omega
      rw [hq, natCharsAux_zero, List.nil_append]
      show a * 10 + charDigit (digitChar (n % 10)) = a * 10 ^ 1 + n
      rw [charDigit_digitChar hmod, hsmall, pow_one]
    · have hle : n / 10 ≤ f := by omega
      have hval := ih (n / 10) hq hle a
      have hfold : charsVal a (natCharsAux f (n / 10) [] ++ [digitChar (n % 10)]) =
          (charsVal a (natCharsAux f (n / 10) [])) * 10 + charDigit (digitChar (n % 10)) := by
        simp only [charsVal, List.foldl_append, List.foldl_cons, List.foldl_nil]
      rw [hfold, hval, charDigit_digitChar hmod, List.length_append,
        List.length_singleton, pow_succ]
      have hdm : 10 * (n / 10) + n % 10 = n := Nat.div_add_mod n 10
      have hring : (a * 10 ^ (natCharsAux f (n / 10) []).length + n / 10) * 10 + n % 10 =
          a * (10 ^ (natCharsAux f (n / 10) []).length * 10) + (10 * (n / 10) + n % 10) := by
        ring
      rw [hring, hdm]

/-- Round-trip: parsing the decimal rendering of `n` recovers `n`. -/
theorem charsVal_natChars (n : Nat) : charsVal 0 (natChars n) = n := by
  by_cases hn : n = 0
  · subst hn; decide
  · rw [natChars, if_neg hn, charsVal_natCharsAux n n hn (Nat.le_refl n) 0]
    simp

theorem natChars_injective : Function.Injective natChars := by
  intro a b h
  have := charsVal_natChars a
  rw [h, charsVal_natChars] at this
  omega

theorem natChars_digits (n : Nat) : ∀ c ∈ natChars n, c.isDigit = true := by
  by_cases hn : n = 0
  · subst hn; decide
  · rw [natChars, if_neg hn]
    have key : ∀ fuel m acc, m ≤ fuel → (∀ c ∈ acc, c.isDigit = true) →
        ∀ c ∈ natCharsAux fuel m acc, c.isDigit = true := by
      intro fuel
      induction fuel with
      | zero => intro m acc _ hacc; simpa [natCharsAux] using hacc
      | succ f ih =>
        intro m acc hm hacc c hc
        by_cases hm0 : m = 0
        · rw [natCharsAux, if_pos hm0] at hc; exact hacc c hc
        · rw [natCharsAux, if_neg hm0] at hc
          have hdivlt : m / 10 < m := Nat.div_lt_self (Nat.pos_of_ne_zero hm0) (by decide)
          refine ih (m / 10) _ (by omega) ?_ c hc
          intro d hd
          rcases List.mem_cons.mp hd with h1 | h2
          · subst h1; exact isDigit_digitChar (Nat.mod_lt _ (by decide))
          · exact hacc d h2
    exact key n n [] (Nat.le_refl n) (by simp)

theorem natChars_ne_nil (n : Nat) : natChars n ≠ [] := by
  by_cases hn : n = 0
  · subst hn; decide
  · rw [natChars, if_neg hn]; exact natCharsAux_ne_nil n n hn (Nat.le_refl n)

/-- Maximal-munch cancellation: if two all-digit blocks are each followed by a
suffix that does not start with a digit, equality of the concatenations forces
equality of the blocks and of the suffixes. -/
theorem digits_append_inj :
    ∀ (a b s t : List Char), (∀ c ∈ a, c.isDigit = true) → (∀ c ∈ b, c.isDigit = true) →
      (∀ c, s.head? = some c → c.isDigit = false) →
      (∀ c, t.head? = some c → c.isDigit = false) →
      a ++ s = b ++ t → a = b ∧ s = t := by
  intro a
  induction a with
  | nil =>
    intro b s t _ hb hs _ h
    cases b with
    | nil => exact ⟨rfl, h⟩
    | cons x xs =>
      exfalso
      simp only [List.nil_append, List.cons_append] at h
      have hx : s.head? = some x := by rw [h]; rfl
      have := hs x hx
      rw [hb x (by simp)] at this
      cases this
  | cons x xs ih =>
    intro b s t ha hb hs ht h
    cases b with
    | nil =>
      exfalso
      simp only [List.cons_append, List.nil_append] at h
      have hx : t.head? = some x := by rw [← h]; rfl
      have := ht x hx
      rw [ha x (by simp)] at this
      cases this
    | cons y ys =>
      simp only [List.cons_append, List.cons.injEq] at h
      obtain ⟨hxy, hrest⟩ := h
      obtain ⟨h1, h2⟩ := ih ys s t (fun c hc => ha c (by simp [hc]))
        (fun c hc => hb c (by simp [hc])) hs ht hrest
      exact ⟨by rw [hxy, h1], h2⟩

/-! ### Artifact path lemmas -/

theorem canonicalPath_head : GenerateObject.canonicalPath.head? = some 'c' := rfl

theorem imagePath_head (i : Nat) (v : GenerateObject.Path) :
    (GenerateObject.imagePath i v).head? = some 'o' := rfl

theorem volumesPath_head (i : Nat) :
    (GenerateObject.volumesPath i).head? = some 'o' := rfl

theorem imagePath_ne_canonical (i : Nat) (v : GenerateObject.Path) :
    GenerateObject.imagePath i v ≠ GenerateObject.canonicalPath := by
  intro h
  have h2 := congrArg List.head? h
  rw [imagePath_head, canonicalPath_head] at h2
  exact absurd h2 (by decide)

theorem volumesPath_ne_canonical (i : Nat) :
    GenerateObject.volumesPath i ≠ GenerateObject.canonicalPath := by
  intro h
  have h2 := congrArg List.head? h
  rw [volumesPath_head, canonicalPath_head] at h2
  exact absurd h2 (by decide)

/-! ### C2 — `execute_code` on a program missing `create_object` -/

/-- Claim C2: for every program text that runs without raising but does not
bind a callable named `create_object`, `execute_code` fails with the
`DefinitionError` (its own `ValueError`) — never with an `ExecutionError`
and never with an unclassified crash. -/
theorem execute_code_missing_create_object {M : Type} (p : ExecuteCode.PyProgram M)
    (ns : List (String × ExecuteCode.PyVal M))
    (hrun : p.run (ExecuteCode.initial_namespace M) = Except.ok ns)
    (hnc : ∀ v, ExecuteCode.nsLookup ns "create_object" = some v →
      v.isCallable = false) :
    ExecuteCode.execute_code p =
      Except.error ExecuteCode.ExecuteError.definitionError := by
  unfold ExecuteCode.execute_code
  rw [hrun]
  show ExecuteCode.callCreateObject (ExecuteCode.nsLookup ns "create_object") =
    Except.error ExecuteCode.ExecuteError.definitionError
  cases hv : ExecuteCode.nsLookup ns "create_object" with
  | none => rfl
  | some v =>
    cases v with
    | callable r => exact absurd (hnc _ hv) (by simp [ExecuteCode.PyVal.isCallable])
    | manifold m => rfl
    | moduleHandle nm => rfl
    | other => rfl

/-- Witness for C2: the concrete program that runs fine and binds only a
non-callable value. -/
theorem execute_code_missing_create_object_witness :
    ExecuteCode.prog_no_create.run (ExecuteCode.initial_namespace Unit) =
        Except.ok [("answer", ExecuteCode.PyVal.other)] ∧
      ExecuteCode.execute_code ExecuteCode.prog_no_create =
        Except.error ExecuteCode.ExecuteError.definitionError :=
  ⟨rfl, execute_code_missing_create_object ExecuteCode.prog_no_create
    [("answer", ExecuteCode.PyVal.other)] rfl
    (by intro v hv; simp [ExecuteCode.nsLookup] at hv)⟩

/-! ### C5 — the executor's namespace seeding -/

/-- Counterexample to C5 as stated: `execute_code` seeds `exec` with the
empty namespace, not with the geometry-kernel and numeric-array module
handles.  A program that reads the kernel handle (as generated code of the
form `create_object = lambda: manifold3d.Manifold.sphere(1)` does) raises a
`NameError` under the source's executor, while the spec-modelled seeded
executor succeeds on it. -/
theorem executor_seed_counterexample :
    ExecuteCode.initial_namespace Unit = [] ∧
      ExecuteCode.nsLookup (ExecuteCode.initial_namespace Unit) "manifold3d" = none ∧
      ExecuteCode.execute_code ExecuteCode.kernelProbe =
        Except.error (ExecuteCode.ExecuteError.raised
          "NameError: name manifold3d is not defined") ∧
      ExecuteCode.execute_spec ExecuteCode.kernelProbe =
        Except.ok (ExecuteCode.PyVal.manifold ()) :=
  ⟨rfl, rfl, rfl, rfl⟩

/-- Claim C5 (amended): `execute_code` runs the program in a fresh namespace
that is completely empty — isolated from the controller's state, but seeded
with nothing at all, so neither module handle is available and programs
must import what they need; its result depends only on the behavior on
that empty namespace.  The batch executor `execute_object_code` seeds
`Manifold` and `np`, but additionally exposes the host module's globals (for
example `client`) to the executed code. -/
theorem executor_namespace_amended :
    (∀ M : Type, ExecuteCode.initial_namespace M = []) ∧
      (∀ (M : Type) (p q : ExecuteCode.PyProgram M),
        p.run (ExecuteCode.initial_namespace M) =
            q.run (ExecuteCode.initial_namespace M) →
          ExecuteCode.execute_code p = ExecuteCode.execute_code q) ∧
      GenerateObjects.execute_object_code GenerateObjects.natKernel
          [("client", GenerateObjects.GVal.other)] GenerateObjects.gprog_read_client =
        Except.ok 4 ∧
      GenerateObjects.execute_object_code GenerateObjects.natKernel []
          GenerateObjects.gprog_read_client =
        Except.error "NameError: name client is not defined" := by
  refine ⟨fun _ => rfl, ?_, rfl, rfl⟩
  intro M p q h
  unfold ExecuteCode.execute_code
  rw [h]

/-- Witness for C5 (amended): two programs that agree on the empty namespace
give the same executor result. -/
theorem executor_namespace_amended_witness :
    ExecuteCode.execute_code
        (⟨fun ns => Except.ok ns⟩ : ExecuteCode.PyProgram Unit) =
      ExecuteCode.execute_code
        (⟨fun _ => Except.ok []⟩ : ExecuteCode.PyProgram Unit) :=
  executor_namespace_amended.2.1 Unit _ _ rfl

/-! ### C6 — the repair/fix-up step -/

/-- Counterexample to C6 as stated: the loop's executor `execute_code`
returns the solid produced by `create_object` unchanged — over a kernel
whose repair operation is observable, the returned non-degenerate solid `5`
is not the repaired solid. -/
theorem executor_no_repair_counterexample :
    ExecuteCode.execute_code GenerateObjects.prog_ret_five =
        Except.ok (ExecuteCode.PyVal.manifold 5) ∧
      GenerateObjects.natKernel.is_empty 5 = false ∧
      GenerateObjects.fixup GenerateObjects.natKernel 5 = 6 ∧
      ExecuteCode.execute_code GenerateObjects.prog_ret_five ≠
        Except.ok (ExecuteCode.PyVal.manifold
          (GenerateObjects.fixup GenerateObjects.natKernel 5)) := by
  refine ⟨rfl, rfl, rfl, ?_⟩
  intro h
  have h2 : (Except.ok (ExecuteCode.PyVal.manifold 5) :
      Except ExecuteCode.ExecuteError (ExecuteCode.PyVal Nat)) =
      Except.ok (ExecuteCode.PyVal.manifold 6) := h
  injection h2 with h3
  injection h3 with h4
  exact absurd h4 (by decide)

/-- Claim C6 (amended): the batch executor `execute_object_code` applies the
kernel's repair operation exactly to non-degenerate found objects — the
returned solid is `fix m` when `m` is not empty and `m` itself when it is —
while the loop's executor `execute_code` returns whatever `create_object`
returned, with no repair in either case. -/
theorem executor_repair_amended :
    (∀ (M : Type) (K : GenerateObjects.Kernel M)
        (hostGlobals : List (String × GenerateObjects.GVal M))
        (p : GenerateObjects.GProgram M)
        (ns : List (String × GenerateObjects.GVal M)) (m : M),
      p.run (GenerateObjects.local_seed M ++ hostGlobals) = Except.ok ns →
        GenerateObjects.foundObject K ns = some m →
          GenerateObjects.execute_object_code K hostGlobals p =
            Except.ok (if K.is_empty m then m else K.fix m)) ∧
      ∀ (M : Type) (p : ExecuteCode.PyProgram M)
        (ns : List (String × ExecuteCode.PyVal M)) (v : ExecuteCode.PyVal M),
        p.run (ExecuteCode.initial_namespace M) = Except.ok ns →
          ExecuteCode.nsLookup ns "create_object" =
            some (ExecuteCode.PyVal.callable (Except.ok v)) →
            ExecuteCode.execute_code p = Except.ok v := by
  constructor
  · intro M K hostGlobals p ns m hrun hfound
    unfold GenerateObjects.execute_object_code
    rw [hrun]
    show GenerateObjects.finishExec K (GenerateObjects.foundObject K ns) = _
    rw [hfound]
    rfl
  · intro M p ns v hrun hlook
    unfold ExecuteCode.execute_code
    rw [hrun]
    show ExecuteCode.callCreateObject (ExecuteCode.nsLookup ns "create_object") =
      Except.ok v
    rw [hlook]
    rfl

/-- Witness for C6 (amended): the program binding the non-degenerate solid
`7` gets it repaired to `8`; the program whose `create_object` returns `5`
gets `5` back unrepaired. -/
theorem executor_repair_amended_witness :
    GenerateObjects.execute_object_code GenerateObjects.natKernel []
        GenerateObjects.gprog_bind_seven = Except.ok 8 ∧
      ExecuteCode.execute_code GenerateObjects.prog_ret_five =
        Except.ok (ExecuteCode.PyVal.manifold 5) :=
  ⟨executor_repair_amended.1 Nat GenerateObjects.natKernel []
      GenerateObjects.gprog_bind_seven
      (GenerateObjects.local_seed Nat ++ [("result", GenerateObjects.GVal.manifold 7)])
      7 rfl rfl,
    executor_repair_amended.2 Nat GenerateObjects.prog_ret_five
      [("create_object",
        ExecuteCode.PyVal.callable (Except.ok (ExecuteCode.PyVal.manifold 5)))]
      (ExecuteCode.PyVal.manifold 5) rfl rfl⟩

/-! ### C7 — the ViewSet invariant -/

/-- Counterexample to C7 as stated: `load_images_from_directory` succeeds on
a directory that holds only the three files `pos_x.jpeg`, `pos_y.jpeg`,
`pos_z.jpeg`; the pipeline then proceeds to use the views as model input
even though `neg_x.jpeg` (the left view) does not exist. -/
theorem viewset_counterexample :
    GenerateObject.load_images_from_directory "d" true
        (fun s => s == "d/pos_x.jpeg" || s == "d/pos_y.jpeg" || s == "d/pos_z.jpeg") =
      Except.ok (["d/pos_x.jpeg", "d/pos_y.jpeg", "d/pos_z.jpeg"],
        GenerateObject.label_to_filename) ∧
    (fun s : String => s == "d/pos_x.jpeg" || s == "d/pos_y.jpeg" || s == "d/pos_z.jpeg")
        "d/neg_x.jpeg" = false :=
  ⟨rfl, rfl⟩

/-- Claim C7 (amended): a render call writes exactly six images, one per
canonical direction, and the view-to-filename mapping is the claimed one
(`pos_x`→right, `neg_x`→left, `pos_y`→top, `neg_y`→bottom, `pos_z`→front,
`neg_z`→back); but before the views are used as model input only the three
files `pos_x.jpeg`, `pos_y.jpeg`, `pos_z.jpeg` (right, top, front) are
required to exist — success of the loading step is equivalent to the
existence of exactly those three — and only the three labels front/top/right
are sent to the model. -/
theorem viewset_amended :
    RenderImage.renderedImageFiles =
        ["pos_x.jpeg", "neg_x.jpeg", "pos_y.jpeg", "neg_y.jpeg",
          "pos_z.jpeg", "neg_z.jpeg"] ∧
      GenerateObject.label_to_filename =
        [("right", "pos_x.jpeg"), ("left", "neg_x.jpeg"), ("top", "pos_y.jpeg"),
          ("bottom", "neg_y.jpeg"), ("front", "pos_z.jpeg"), ("back", "neg_z.jpeg")] ∧
      GenerateObject.view_labels = ["front", "top", "right"] ∧
      GenerateObject.filename_to_label =
        [("pos_x.jpeg", "right"), ("pos_y.jpeg", "top"), ("pos_z.jpeg", "front")] ∧
      ∀ (dir : String) (fe : String → Bool),
        (∃ r, GenerateObject.load_images_from_directory dir true fe = Except.ok r) ↔
          ∀ fl ∈ GenerateObject.filename_to_label, fe (dir ++ "/" ++ fl.1) = true := by
  refine ⟨rfl, rfl, rfl, rfl, ?_⟩
  intro dir fe
  unfold GenerateObject.load_images_from_directory
  simp only [Bool.true_eq_false, if_false]
  cases hf : GenerateObject.filename_to_label.find?
      (fun fl => ! fe (dir ++ "/" ++ fl.1)) with
  | none =>
    simp only [List.find?_eq_none] at hf
    constructor
    · intro _ fl hfl
      have := hf fl hfl
      simpa using this
    · intro _
      exact ⟨_, rfl⟩
  | some fl =>
    constructor
    · intro hr
      obtain ⟨r, hr⟩ := hr
      cases hr
    · intro hall
      have hmem := List.mem_of_find?_eq_some hf
      have hp := List.find?_some hf
      have := hall fl hmem
      rw [this] at hp
      cases hp

/-- Witness for C7 (amended): with every file present the loading step
succeeds. -/
theorem viewset_amended_witness :
    ∃ r, GenerateObject.load_images_from_directory "d" true (fun _ => true) =
      Except.ok r :=
  (viewset_amended.2.2.2.2 "d" (fun _ => true)).mpr (by intro fl _; rfl)

/-! ### C1 — process exit codes -/

/-- Claim C1 (code bug): on an Executor failure the loop outcome is `failed`
but the process still exits `0` — `main`'s first `except Exception` handler
swallows the exception and control falls through to `return 0` (the second
handler with `return 1` is unreachable dead code), contradicting the claimed
non-zero exit.  Startup failures (missing `api_key.txt`, missing
`initial_code.py`) do exit non-zero as claimed. -/
theorem exit_code_on_executor_failure :
    (GenerateObject.mainRun GenerateObject.failEnv 60 "stub").2 =
        GenerateObject.Outcome.failed ∧
      GenerateObject.script_exit_code GenerateObject.failEnv true (some "stub") 60 = 0 ∧
      GenerateObject.script_exit_code GenerateObject.failEnv false (some "stub") 60 = 1 ∧
      GenerateObject.script_exit_code GenerateObject.failEnv true none 60 = 1 :=
  ⟨rfl, rfl, rfl, rfl⟩

/-! ### Loop step lemmas -/

theorem loopAux_zero {M : Type} (env : GenerateObject.LoopEnv M)
    (iter : Nat) (code : String) :
    GenerateObject.loopAux env 0 iter code = ([], GenerateObject.Outcome.exhausted) := rfl

theorem loopAux_execError {M : Type} (env : GenerateObject.LoopEnv M)
    (r iter : Nat) (code : String) (e : String)
    (h : env.exec code = Except.error e) :
    GenerateObject.loopAux env (r + 1) iter code =
      ([GenerateObject.Ev.execCall code], GenerateObject.Outcome.failed) := by
  simp only [GenerateObject.loopAux]
  rw [h]

theorem loopAux_proposeError {M : Type} (env : GenerateObject.LoopEnv M)
    (r iter : Nat) (code : String) (m : M) (e : String)
    (h1 : env.exec code = Except.ok m)
    (h2 : env.propose iter code = Except.error e) :
    GenerateObject.loopAux env (r + 1) iter code =
      (GenerateObject.passHead iter code, GenerateObject.Outcome.failed) := by
  simp only [GenerateObject.loopAux]
  rw [h1, h2]

theorem loopAux_converged {M : Type} (env : GenerateObject.LoopEnv M)
    (r iter : Nat) (code : String) (m : M)
    (h1 : env.exec code = Except.ok m)
    (h2 : env.propose iter code = Except.ok code) :
    GenerateObject.loopAux env (r + 1) iter code =
      (GenerateObject.passHead iter code, GenerateObject.Outcome.converged) := by
  simp only [GenerateObject.loopAux]
  rw [h1, h2]
  simp

theorem loopAux_accept {M : Type} (env : GenerateObject.LoopEnv M)
    (r iter : Nat) (code newCode : String) (m : M)
    (h1 : env.exec code = Except.ok m)
    (h2 : env.propose iter code = Except.ok newCode)
    (hne : newCode ≠ code) :
    GenerateObject.loopAux env (r + 1) iter code =
      (GenerateObject.passHead iter code ++
          (GenerateObject.Ev.writeFile GenerateObject.canonicalPath newCode ::
            GenerateObject.Ev.writeFile (GenerateObject.volumesPath iter)
              (GenerateObject.volumesContent env m) ::
            (GenerateObject.loopAux env r (iter + 1) newCode).1),
        (GenerateObject.loopAux env r (iter + 1) newCode).2) := by
  simp only [GenerateObject.loopAux]
  rw [h1, h2]
  simp [hne]

/-! ### Accepted-iteration counting -/

theorem acceptedCount_passHead (i : Nat) (code : String) :
    GenerateObject.acceptedCount (GenerateObject.passHead i code) = 0 := by
  have hRW : List.countP GenerateObject.isAcceptWrite (GenerateObject.renderWrites i) = 0 := by
    rw [List.countP_eq_zero]
    intro ev hev
    rw [GenerateObject.renderWrites] at hev
    obtain ⟨v, hv, hveq⟩ := List.mem_map.mp hev
    subst hveq
    simp only [GenerateObject.isAcceptWrite, beq_iff_eq]
    exact imagePath_ne_canonical i v
  simp only [GenerateObject.acceptedCount, GenerateObject.passHead,
    List.countP_cons, List.countP_append, List.countP_nil, hRW]
  simp [GenerateObject.isAcceptWrite]

theorem acceptedCount_accept_evs {M : Type} (env : GenerateObject.LoopEnv M)
    (i : Nat) (code newCode : String) (m : M) (rest : List GenerateObject.Ev) :
    GenerateObject.acceptedCount (GenerateObject.passHead i code ++
        (GenerateObject.Ev.writeFile GenerateObject.canonicalPath newCode ::
          GenerateObject.Ev.writeFile (GenerateObject.volumesPath i)
            (GenerateObject.volumesContent env m) :: rest)) =
      GenerateObject.acceptedCount rest + 1 := by
  unfold GenerateObject.acceptedCount
  rw [List.countP_append, List.countP_cons, List.countP_cons]
  have h1 : GenerateObject.acceptedCount (GenerateObject.passHead i code) = 0 :=
    acceptedCount_passHead i code
  unfold GenerateObject.acceptedCount at h1
  rw [h1]
  have h2 : GenerateObject.isAcceptWrite
      (GenerateObject.Ev.writeFile GenerateObject.canonicalPath newCode) = true := by
    simp [GenerateObject.isAcceptWrite]
  have h3 : GenerateObject.isAcceptWrite
      (GenerateObject.Ev.writeFile (GenerateObject.volumesPath i)
        (GenerateObject.volumesContent env m)) = false := by
    simp [GenerateObject.isAcceptWrite]
    exact volumesPath_ne_canonical i
  rw [h2, h3]
  simp

/-- The loop performs at most `r` accepted transitions in `r` remaining
iterations, and exhausts the budget exactly when every remaining iteration
was an accepted transition. -/
theorem loopAux_accepted {M : Type} (env : GenerateObject.LoopEnv M) :
    ∀ (r iter : Nat) (code : String),
      GenerateObject.acceptedCount (GenerateObject.loopAux env r iter code).1 ≤ r ∧
        ((GenerateObject.loopAux env r iter code).2 = GenerateObject.Outcome.exhausted ↔
          GenerateObject.acceptedCount (GenerateObject.loopAux env r iter code).1 = r) := by
  intro r
  induction r with
  | zero =>
    intro iter code
    rw [loopAux_zero]
    exact ⟨Nat.le_refl 0, by simp [GenerateObject.acceptedCount]⟩
  | succ n ih =>
    intro iter code
    cases h1 : env.exec code with
    | error e =>
      rw [loopAux_execError env n iter code e h1]
      have hc : GenerateObject.acceptedCount [GenerateObject.Ev.execCall code] = 0 := by
        simp [GenerateObject.acceptedCount, GenerateObject.isAcceptWrite]
      refine ⟨by rw [hc]; omega, ?_, ?_⟩
      · intro h; simp at h
      · intro h; rw [hc] at h; omega
    | ok m =>
      cases h2 : env.propose iter code with
      | error e =>
        rw [loopAux_proposeError env n iter code m e h1 h2]
        refine ⟨by rw [acceptedCount_passHead]; omega, ?_, ?_⟩
        · intro h; simp at h
        · intro h; rw [acceptedCount_passHead] at h; omega
      | ok newCode =>
        by_cases hne : newCode = code
        · rw [hne] at h2
          rw [loopAux_converged env n iter code m h1 h2]
          refine ⟨by rw [acceptedCount_passHead]; omega, ?_, ?_⟩
          · intro h; simp at h
          · intro h; rw [acceptedCount_passHead] at h; omega
        · rw [loopAux_accept env n iter code newCode m h1 h2 hne]
          rw [acceptedCount_accept_evs]
          obtain ⟨hle, hiff⟩ := ih (iter + 1) newCode
          exact ⟨by omega, by rw [hiff]; omega⟩

/-! ### C4 — the iteration bound -/

/-- Claim C4: for every environment and bound, the loop performs at most
`maxIter` accepted COMPARE transitions (counted as writes of a new program
to the canonical `code.py`), the terminal state is `EXHAUSTED` exactly when
all `maxIter` iterations were accepted with no convergence, and exhaustion
is a normal outcome — `main` returns `0` for it, not a crash. -/
theorem max_iterations_bound {M : Type} (env : GenerateObject.LoopEnv M)
    (maxIter : Nat) (code0 : String) :
    GenerateObject.acceptedCount (GenerateObject.loopAux env maxIter 0 code0).1 ≤
        maxIter ∧
      ((GenerateObject.loopAux env maxIter 0 code0).2 =
          GenerateObject.Outcome.exhausted ↔
        GenerateObject.acceptedCount (GenerateObject.loopAux env maxIter 0 code0).1 =
          maxIter) ∧
      GenerateObject.main_return_value GenerateObject.Outcome.exhausted = 0 :=
  ⟨(loopAux_accepted env maxIter 0 code0).1,
    (loopAux_accepted env maxIter 0 code0).2, rfl⟩

/-- Witness for C4: with a Proposer that always changes the text and a
budget of `3`, the run exhausts the budget after exactly `3` accepted
transitions. -/
theorem max_iterations_bound_witness :
    (GenerateObject.loopAux GenerateObject.growEnv 3 0 "p").2 =
      GenerateObject.Outcome.exhausted :=
  (max_iterations_bound GenerateObject.growEnv 3 "p").2.1.mpr (by decide)

/-! ### C3 — convergence stops the loop -/

/-- Claim C3: in any iteration whose PROPOSE call returns text exactly equal
to the current program text, the controller converges: the remaining run
consists of exactly that iteration's EXECUTE, RENDER and PROPOSE events
(one of each, plus the six screenshot writes) and terminates in `CONVERGED`,
with no further EXECUTE, RENDER or PROPOSE calls and no further writes. -/
theorem converged_stops_loop {M : Type} (env : GenerateObject.LoopEnv M)
    (r iter : Nat) (code : String) (m : M)
    (hexec : env.exec code = Except.ok m)
    (hprop : env.propose iter code = Except.ok code) :
    GenerateObject.loopAux env (r + 1) iter code =
        (GenerateObject.passHead iter code, GenerateObject.Outcome.converged) ∧
      (GenerateObject.passHead iter code).countP GenerateObject.isExecEv = 1 ∧
      (GenerateObject.passHead iter code).countP GenerateObject.isRenderEv = 1 ∧
      (GenerateObject.passHead iter code).countP GenerateObject.isProposeEv = 1 := by
  refine ⟨loopAux_converged env r iter code m hexec hprop, ?_, ?_, ?_⟩ <;>
    simp [GenerateObject.passHead, GenerateObject.renderWrites, GenerateObject.viewsC,
      RenderImage.viewNames, List.countP_cons, List.countP_append, List.countP_map,
      GenerateObject.isExecEv, GenerateObject.isRenderEv, GenerateObject.isProposeEv]

/-- Witness for C3: the echo Proposer converges on the first iteration even
with budget left. -/
theorem converged_stops_loop_witness :
    GenerateObject.echoEnv.exec "p" = Except.ok () ∧
      GenerateObject.echoEnv.propose 0 "p" = Except.ok "p" ∧
      GenerateObject.loopAux GenerateObject.echoEnv 5 0 "p" =
        (GenerateObject.passHead 0 "p", GenerateObject.Outcome.converged) :=
  ⟨rfl, rfl, (converged_stops_loop GenerateObject.echoEnv 4 0 "p" () rfl rfl).1⟩

/-! ### Iteration-indexed path injectivity -/

theorem iterDir_append_inj {i j : Nat} {s t : List Char}
    (hs : ∀ c, s.head? = some c → c.isDigit = false)
    (ht : ∀ c, t.head? = some c → c.isDigit = false)
    (h : GenerateObject.iterDir i ++ s = GenerateObject.iterDir j ++ t) :
    i = j ∧ s = t := by
  unfold GenerateObject.iterDir at h
  rw [List.append_assoc, List.append_assoc] at h
  have h2 := List.append_cancel_left h
  obtain ⟨h3, h4⟩ := digits_append_inj (natChars i) (natChars j) s t
    (natChars_digits i) (natChars_digits j) hs ht h2
  exact ⟨natChars_injective h3, h4⟩

theorem imagePath_eq_iterDir_append (i : Nat) (v : GenerateObject.Path) :
    GenerateObject.imagePath i v =
      GenerateObject.iterDir i ++ ("/images/".data ++ (v ++ ".jpeg".data)) := by
  unfold GenerateObject.imagePath
  simp [List.append_assoc]

theorem images_suffix_head (X : List Char) :
    ∀ c, (("/images/".data ++ X).head?) = some c → c.isDigit = false := by
  intro c hc
  have hh : ("/images/".data ++ X).head? = some '/' := rfl
  rw [hh] at hc
  injection hc with h
  subst h
  decide

theorem volumes_suffix_head :
    ∀ c, (("/volumes.txt".data : List Char).head?) = some c → c.isDigit = false := by
  intro c hc
  have hh : ("/volumes.txt".data : List Char).head? = some '/' := rfl
  rw [hh] at hc
  injection hc with h
  subst h
  decide

theorem volumesPath_inj {i j : Nat}
    (h : GenerateObject.volumesPath i = GenerateObject.volumesPath j) : i = j := by
  unfold GenerateObject.volumesPath at h
  exact (iterDir_append_inj volumes_suffix_head volumes_suffix_head h).1

theorem viewsC_length : ∀ v ∈ GenerateObject.viewsC, v.length = 5 := by decide

theorem imagePath_inj {i j : Nat} {v w : GenerateObject.Path}
    (hv : v ∈ GenerateObject.viewsC) (hw : w ∈ GenerateObject.viewsC)
    (h : GenerateObject.imagePath i v = GenerateObject.imagePath j w) :
    i = j ∧ v = w := by
  rw [imagePath_eq_iterDir_append, imagePath_eq_iterDir_append] at h
  obtain ⟨hij, hs⟩ := iterDir_append_inj (images_suffix_head _) (images_suffix_head _) h
  have hs2 := List.append_cancel_left hs
  have hlv := viewsC_length v hv
  have hlw := viewsC_length w hw
  exact ⟨hij, List.append_inj_left hs2 (by omega)⟩

theorem imagePath_ne_volumesPath (i j : Nat) (v : GenerateObject.Path) :
    GenerateObject.imagePath i v ≠ GenerateObject.volumesPath j := by
  intro h
  rw [imagePath_eq_iterDir_append] at h
  unfold GenerateObject.volumesPath at h
  obtain ⟨hij, hs⟩ := iterDir_append_inj (images_suffix_head _) volumes_suffix_head h
  have hL : (("/images/".data ++ (v ++ ".jpeg".data)).tail).head? = some 'i' := rfl
  rw [hs] at hL
  have hR : (("/volumes.txt".data : List Char).tail).head? = some 'v' := rfl
  rw [hR] at hL
  injection hL with h2
  exact absurd h2 (by decide)

/-! ### Artifact path bookkeeping for the loop -/

theorem artifactPaths_passHead (i : Nat) (code : String) :
    GenerateObject.artifactPaths (GenerateObject.passHead i code) =
      GenerateObject.viewsC.map (fun v => GenerateObject.imagePath i v) := by
  have hbeq : ∀ v, (GenerateObject.imagePath i v == GenerateObject.canonicalPath) = false :=
    fun v => beq_eq_false_iff_ne.mpr (imagePath_ne_canonical i v)
  simp [GenerateObject.artifactPaths, GenerateObject.passHead,
    GenerateObject.renderWrites, GenerateObject.artifactPath, GenerateObject.viewsC,
    RenderImage.viewNames, hbeq]

theorem artifactPaths_accept {M : Type} (env : GenerateObject.LoopEnv M)
    (i : Nat) (code newCode : String) (m : M) (rest : List GenerateObject.Ev) :
    GenerateObject.artifactPaths (GenerateObject.passHead i code ++
        (GenerateObject.Ev.writeFile GenerateObject.canonicalPath newCode ::
          GenerateObject.Ev.writeFile (GenerateObject.volumesPath i)
            (GenerateObject.volumesContent env m) :: rest)) =
      GenerateObject.viewsC.map (fun v => GenerateObject.imagePath i v) ++
        GenerateObject.volumesPath i :: GenerateObject.artifactPaths rest := by
  have hvol : (GenerateObject.volumesPath i == GenerateObject.canonicalPath) = false :=
    beq_eq_false_iff_ne.mpr (volumesPath_ne_canonical i)
  unfold GenerateObject.artifactPaths
  rw [List.filterMap_append, List.filterMap_cons, List.filterMap_cons]
  have h1 : GenerateObject.artifactPath
      (GenerateObject.Ev.writeFile GenerateObject.canonicalPath newCode) = none := by
    simp [GenerateObject.artifactPath]
  have h2 : GenerateObject.artifactPath
      (GenerateObject.Ev.writeFile (GenerateObject.volumesPath i)
        (GenerateObject.volumesContent env m)) = some (GenerateObject.volumesPath i) := by
    simp [GenerateObject.artifactPath, hvol]
  rw [h1, h2]
  have h3 := artifactPaths_passHead i code
  unfold GenerateObject.artifactPaths at h3
  rw [h3]

theorem mem_artifactPaths {evs : List GenerateObject.Ev} {p : GenerateObject.Path}
    (h : p ∈ GenerateObject.artifactPaths evs) :
    ∃ c, GenerateObject.Ev.writeFile p c ∈ evs := by
  unfold GenerateObject.artifactPaths at h
  obtain ⟨ev, hev, hpe⟩ := List.mem_filterMap.mp h
  cases ev with
  | writeFile q c =>
    simp only [GenerateObject.artifactPath] at hpe
    by_cases hq : (q == GenerateObject.canonicalPath) = true
    · rw [if_pos hq] at hpe; cases hpe
    · rw [if_neg hq] at hpe
      injection hpe with h2
      subst h2
      exact ⟨c, hev⟩
  | execCall c => simp [GenerateObject.artifactPath] at hpe
  | renderCall j => simp [GenerateObject.artifactPath] at hpe
  | proposeCall j c => simp [GenerateObject.artifactPath] at hpe

theorem writeFile_mem_passHead {i : Nat} {code : String} {p : GenerateObject.Path}
    {c : String}
    (h : GenerateObject.Ev.writeFile p c ∈ GenerateObject.passHead i code) :
    ∃ v ∈ GenerateObject.viewsC, p = GenerateObject.imagePath i v ∧
      c = GenerateObject.screenshotContent := by
  unfold GenerateObject.passHead GenerateObject.renderWrites at h
  simp at h
  obtain ⟨v, hv, h1, h2⟩ := h
  exact ⟨v, hv, h1.symm, h2.symm⟩

theorem nodup_imageMap (i : Nat) :
    (GenerateObject.viewsC.map (fun v => GenerateObject.imagePath i v)).Nodup := by
  refine List.Nodup.map_on ?_ (by decide)
  intro x hx y hy hxy
  exact (imagePath_inj hx hy hxy).2

/-! ### C9 — per-iteration artifact locations -/

/-- Counterexample to C9 as stated: in a concrete two-iteration run whose
Proposer always changes the text, iteration 0's accepted Program text `p0`
is written only to the canonical `code.py` — no iteration-indexed location
ever receives any program text — and `code.py` is subsequently overwritten
with the next iteration's text `p0x`, so the Program text of an accepted
iteration is not persisted to a distinct location indexed by that
iteration. -/
theorem program_text_location_counterexample :
    ((GenerateObject.mainRun GenerateObject.growEnv 2 "p0").1.all fun ev =>
        match ev with
        | GenerateObject.Ev.writeFile p c =>
          c != "p0" || p == GenerateObject.canonicalPath
        | _ => true) = true ∧
      GenerateObject.Ev.writeFile GenerateObject.canonicalPath "p0" ∈
        (GenerateObject.mainRun GenerateObject.growEnv 2 "p0").1 ∧
      GenerateObject.Ev.writeFile GenerateObject.canonicalPath "p0x" ∈
        (GenerateObject.mainRun GenerateObject.growEnv 2 "p0").1 ∧
      (GenerateObject.mainRun GenerateObject.growEnv 2 "p0").2 =
        GenerateObject.Outcome.exhausted := by
  decide

/-- Claim C9 (amended): every write of the loop goes either to the single
canonical program file `code.py` — the only place any Program text is
persisted, overwritten on each accepted iteration — or to an
iteration-indexed artifact location of some iteration `j ≥ iter` (a view
image carrying screenshot content, or that iteration's volumes/error
record), and the artifact locations written across the whole run are
pairwise distinct: no iteration-indexed location is ever written twice. -/
theorem artifact_locations_amended {M : Type} (env : GenerateObject.LoopEnv M) :
    ∀ (r iter : Nat) (code : String),
      (∀ p c,
        GenerateObject.Ev.writeFile p c ∈ (GenerateObject.loopAux env r iter code).1 →
          p = GenerateObject.canonicalPath ∨
            ∃ j, iter ≤ j ∧
              ((p = GenerateObject.volumesPath j ∧
                  ∃ m, c = GenerateObject.volumesContent env m) ∨
                ∃ v ∈ GenerateObject.viewsC,
                  p = GenerateObject.imagePath j v ∧
                    c = GenerateObject.screenshotContent)) ∧
        (GenerateObject.artifactPaths (GenerateObject.loopAux env r iter code).1).Nodup := by
  intro r
  induction r with
  | zero =>
    intro iter code
    rw [loopAux_zero]
    exact ⟨fun p c h => absurd h (List.not_mem_nil _), List.nodup_nil⟩
  | succ n ih =>
    intro iter code
    cases h1 : env.exec code with
    | error e =>
      rw [loopAux_execError env n iter code e h1]
      constructor
      · intro p c h
        simp at h
      · exact List.nodup_nil
    | ok m =>
      cases h2 : env.propose iter code with
      | error e =>
        rw [loopAux_proposeError env n iter code m e h1 h2]
        constructor
        · intro p c h
          obtain ⟨v, hv, hp, hc⟩ := writeFile_mem_passHead h
          exact Or.inr ⟨iter, Nat.le_refl iter, Or.inr ⟨v, hv, hp, hc⟩⟩
        · rw [artifactPaths_passHead]
          exact nodup_imageMap iter
      | ok newCode =>
        by_cases hne : newCode = code
        · rw [hne] at h2
          rw [loopAux_converged env n iter code m h1 h2]
          constructor
          · intro p c h
            obtain ⟨v, hv, hp, hc⟩ := writeFile_mem_passHead h
            exact Or.inr ⟨iter, Nat.le_refl iter, Or.inr ⟨v, hv, hp, hc⟩⟩
          · rw [artifactPaths_passHead]
            exact nodup_imageMap iter
        · rw [loopAux_accept env n iter code newCode m h1 h2 hne]
          obtain ⟨iha, ihb⟩ := ih (iter + 1) newCode
          constructor
          · intro p c h
            rw [List.mem_append] at h
            rcases h with h | h
            · obtain ⟨v, hv, hp, hc⟩ := writeFile_mem_passHead h
              exact Or.inr ⟨iter, Nat.le_refl iter, Or.inr ⟨v, hv, hp, hc⟩⟩
            · rcases List.mem_cons.mp h with h | h
              · injection h with hp hc
                exact Or.inl hp
              · rcases List.mem_cons.mp h with h | h
                · injection h with hp hc
                  exact Or.inr ⟨iter, Nat.le_refl iter, Or.inl ⟨hp, m, hc⟩⟩
                · rcases iha p c h with hcan | ⟨j, hj, hrest⟩
                  · exact Or.inl hcan
                  · exact Or.inr ⟨j, by omega, hrest⟩
          · rw [artifactPaths_accept]
            refine List.Nodup.append (nodup_imageMap iter) ?_ ?_
            · rw [List.nodup_cons]
              refine ⟨?_, ihb⟩
              intro hmem
              obtain ⟨c, hev⟩ := mem_artifactPaths hmem
              rcases iha _ _ hev with hcan | ⟨j, hj, hrest⟩
              · exact volumesPath_ne_canonical iter hcan
              · rcases hrest with ⟨hp, _⟩ | ⟨v, hv, hp, _⟩
                · have hij := volumesPath_inj hp
                  omega
                · exact imagePath_ne_volumesPath j iter v hp.symm
            · intro x hx hx2
              obtain ⟨v, hv, hxv⟩ := List.mem_map.mp hx
              rcases List.mem_cons.mp hx2 with hxv2 | hx3
              · rw [← hxv] at hxv2
                exact imagePath_ne_volumesPath iter iter v hxv2
              · obtain ⟨c, hev⟩ := mem_artifactPaths hx3
                rcases iha _ _ hev with hcan | ⟨j, hj, hrest⟩
                · rw [← hxv] at hcan
                  exact imagePath_ne_canonical iter v hcan
                · rcases hrest with ⟨hp, _⟩ | ⟨w, hw, hp, _⟩
                  · rw [← hxv] at hp
                    exact imagePath_ne_volumesPath iter j v hp
                  · rw [← hxv] at hp
                    have hij := (imagePath_inj hv hw hp).1
                    omega

/-- Witness for C9 (amended) at a concrete run: the artifact locations of a
two-iteration run are pairwise distinct. -/
theorem artifact_locations_amended_witness :
    (GenerateObject.artifactPaths
      (GenerateObject.loopAux GenerateObject.growEnv 2 0 "p0").1).Nodup :=
  (artifact_locations_amended GenerateObject.growEnv 2 0 "p0").2

/-! ### C8 — OBJ export round-trip -/

theorem splitOnChar_ne_nil (sep : Char) (l : List Char) :
    SphereAndCube.splitOnChar sep l ≠ [] := by
  induction l with
  | nil => simp [SphereAndCube.splitOnChar]
  | cons c rest ih =>
    unfold SphereAndCube.splitOnChar
    cases h : SphereAndCube.splitOnChar sep rest with
    | nil => exact absurd h ih
    | cons hh tt => by_cases hc : c = sep <;> simp [hc]

theorem splitOnChar_no_sep (sep : Char) (xs : List Char) (h : sep ∉ xs) :
    SphereAndCube.splitOnChar sep xs = [xs] := by
  induction xs with
  | nil => rfl
  | cons c rest ih =>
    have hc : c ≠ sep := fun hh => h (by simp [hh])
    have hrest : sep ∉ rest := fun hh => h (by simp [hh])
    unfold SphereAndCube.splitOnChar
    rw [ih hrest]
    simp [hc]

theorem splitOnChar_append (sep : Char) (xs ys : List Char) (h : sep ∉ xs) :
    SphereAndCube.splitOnChar sep (xs ++ sep :: ys) =
      xs :: SphereAndCube.splitOnChar sep ys := by
  induction xs with
  | nil =>
    simp only [List.nil_append]
    cases hy : SphereAndCube.splitOnChar sep ys with
    | nil => exact absurd hy (splitOnChar_ne_nil sep ys)
    | cons hh tt =>
      conv_lhs => rw [SphereAndCube.splitOnChar]
      rw [hy]
      simp
  | cons c rest ih =>
    have hc : c ≠ sep := fun hh => h (by simp [hh])
    have hrest : sep ∉ rest := fun hh => h (by simp [hh])
    simp only [List.cons_append]
    conv_lhs => rw [SphereAndCube.splitOnChar]
    rw [ih hrest]
    simp [hc]

theorem natChars_all_digits (n : Nat) : (natChars n).all Char.isDigit = true :=
  List.all_eq_true.mpr (natChars_digits n)

theorem parseNat_natChars (n : Nat) : SphereAndCube.parseNat (natChars n) = some n := by
  unfold SphereAndCube.parseNat
  rw [if_pos ⟨natChars_ne_nil n, natChars_all_digits n⟩, charsVal_natChars]

theorem space_not_mem_natChars (n : Nat) : ' ' ∉ natChars n := by
  intro h
  have hd := natChars_digits n ' ' h
  exact absurd hd (by decide)

theorem lineFaceIndices_faceLine (t : SphereAndCube.Tri) :
    SphereAndCube.lineFaceIndices (SphereAndCube.faceLine t) =
      some [t.1 + 1, t.2.1 + 1, t.2.2 + 1] := by
  show (SphereAndCube.splitOnChar ' '
      (natChars (t.1 + 1) ++ ' ' ::
        (natChars (t.2.1 + 1) ++ ' ' :: natChars (t.2.2 + 1)))).mapM
      SphereAndCube.parseNat = some [t.1 + 1, t.2.1 + 1, t.2.2 + 1]
  rw [splitOnChar_append ' ' _ _ (space_not_mem_natChars _),
    splitOnChar_append ' ' _ _ (space_not_mem_natChars _),
    splitOnChar_no_sep ' ' _ (space_not_mem_natChars _)]
  simp only [List.mapM_cons, List.mapM_nil, parseNat_natChars]
  rfl

theorem isVertexLine_vertexLine (v : RenderImage.V3) :
    SphereAndCube.isVertexLine (SphereAndCube.vertexLine v) = true := rfl

theorem isVertexLine_faceLine (t : SphereAndCube.Tri) :
    SphereAndCube.isVertexLine (SphereAndCube.faceLine t) = false := rfl

theorem isFaceLine_vertexLine (v : RenderImage.V3) :
    SphereAndCube.isFaceLine (SphereAndCube.vertexLine v) = false := rfl

theorem isFaceLine_faceLine (t : SphereAndCube.Tri) :
    SphereAndCube.isFaceLine (SphereAndCube.faceLine t) = true := rfl

theorem lineFaceIndices_vertexLine (v : RenderImage.V3) :
    SphereAndCube.lineFaceIndices (SphereAndCube.vertexLine v) = none := rfl

/-- Claim C8: re-parsing the written OBJ text of any mesh yields the same
vertex count and the same face count, and every face index the export wrote
(1-based) lies within `[1, vertex_count]` — given the kernel's guarantee
that the mesh's 0-based face indices are valid indices into its vertex
array. -/
theorem obj_export_roundtrip (vs : List RenderImage.V3) (fs : List SphereAndCube.Tri)
    (hvalid : ∀ t ∈ fs, t.1 < vs.length ∧ t.2.1 < vs.length ∧ t.2.2 < vs.length) :
    SphereAndCube.parsedVertexCount (SphereAndCube.write_obj vs fs) = vs.length ∧
      SphereAndCube.parsedFaceCount (SphereAndCube.write_obj vs fs) = fs.length ∧
      ∀ l ∈ SphereAndCube.write_obj vs fs, ∀ il,
        SphereAndCube.lineFaceIndices l = some il →
        ∀ ix ∈ il, 1 ≤ ix ∧ ix ≤ vs.length := by
  refine ⟨?_, ?_, ?_⟩
  · unfold SphereAndCube.parsedVertexCount SphereAndCube.write_obj
    rw [List.countP_append, List.countP_map, List.countP_map]
    have h1 : List.countP (SphereAndCube.isVertexLine ∘ SphereAndCube.vertexLine) vs =
        vs.length := by
      rw [List.countP_eq_length]
      intro v hv
      exact isVertexLine_vertexLine v
    have h2 : List.countP (SphereAndCube.isVertexLine ∘ SphereAndCube.faceLine) fs = 0 := by
      rw [List.countP_eq_zero]
      intro t ht hcontra
      rw [Function.comp_apply, isVertexLine_faceLine] at hcontra
      cases hcontra
    rw [h1, h2]
    omega
  · unfold SphereAndCube.parsedFaceCount SphereAndCube.write_obj
    rw [List.countP_append, List.countP_map, List.countP_map]
    have h1 : List.countP (SphereAndCube.isFaceLine ∘ SphereAndCube.vertexLine) vs = 0 := by
      rw [List.countP_eq_zero]
      intro v hv hcontra
      rw [Function.comp_apply, isFaceLine_vertexLine] at hcontra
      cases hcontra
    have h2 : List.countP (SphereAndCube.isFaceLine ∘ SphereAndCube.faceLine) fs =
        fs.length := by
      rw [List.countP_eq_length]
      intro t ht
      exact isFaceLine_faceLine t
    rw [h1, h2]
    omega
  · intro l hl il hil ix hix
    unfold SphereAndCube.write_obj at hl
    rw [List.mem_append] at hl
    rcases hl with hl | hl
    · obtain ⟨v, hv, rfl⟩ := List.mem_map.mp hl
      rw [lineFaceIndices_vertexLine] at hil
      cases hil
    · obtain ⟨t, ht, rfl⟩ := List.mem_map.mp hl
      rw [lineFaceIndices_faceLine] at hil
      injection hil with hil
      subst hil
      obtain ⟨h1, h2, h3⟩ := hvalid t ht
      simp only [List.mem_cons, List.not_mem_nil, or_false] at hix
      rcases hix with rfl | rfl | rfl
      · omega
      · omega
      · omega

/-- Witness for C8 at a concrete triangle mesh. -/
theorem obj_export_roundtrip_witness :
    SphereAndCube.parsedVertexCount
        (SphereAndCube.write_obj
          [((0 : ℚ), (0 : ℚ), (0 : ℚ)), (1, 0, 0), (0, 1, 0)] [(0, 1, 2)]) = 3 ∧
      SphereAndCube.parsedFaceCount
        (SphereAndCube.write_obj
          [((0 : ℚ), (0 : ℚ), (0 : ℚ)), (1, 0, 0), (0, 1, 0)] [(0, 1, 2)]) = 1 :=
  ⟨(obj_export_roundtrip [((0 : ℚ), (0 : ℚ), (0 : ℚ)), (1, 0, 0), (0, 1, 0)]
      [(0, 1, 2)] (by decide)).1,
    (obj_export_roundtrip [((0 : ℚ), (0 : ℚ), (0 : ℚ)), (1, 0, 0), (0, 1, 0)]
      [(0, 1, 2)] (by decide)).2.1⟩

/-! ### C10 — normalization is translation and scale invariant -/

theorem foldl_max_map (f : ℚ → ℚ) (hf : Monotone f) (a : ℚ) (l : List ℚ) :
    (l.map f).foldl max (f a) = f (l.foldl max a) := by
  induction l generalizing a with
  | nil => rfl
  | cons x xs ih =>
    simp only [List.map_cons, List.foldl_cons]
    rw [← hf.map_max, ih]

theorem foldl_min_map (f : ℚ → ℚ) (hf : Monotone f) (a : ℚ) (l : List ℚ) :
    (l.map f).foldl min (f a) = f (l.foldl min a) := by
  induction l generalizing a with
  | nil => rfl
  | cons x xs ih =>
    simp only [List.map_cons, List.foldl_cons]
    rw [← hf.map_min, ih]

theorem lmax_map (f : ℚ → ℚ) (hf : Monotone f) (l : List ℚ) (hne : l ≠ []) :
    RenderImage.lmax (l.map f) = f (RenderImage.lmax l) := by
  cases l with
  | nil => exact absurd rfl hne
  | cons x xs =>
    show (xs.map f).foldl max (f x) = f (xs.foldl max x)
    exact foldl_max_map f hf x xs

theorem lmin_map (f : ℚ → ℚ) (hf : Monotone f) (l : List ℚ) (hne : l ≠ []) :
    RenderImage.lmin (l.map f) = f (RenderImage.lmin l) := by
  cases l with
  | nil => exact absurd rfl hne
  | cons x xs =>
    show (xs.map f).foldl min (f x) = f (xs.foldl min x)
    exact foldl_min_map f hf x xs

theorem vsum_affine (s : ℚ) (t : RenderImage.V3) (vs : List RenderImage.V3) :
    RenderImage.vsum (vs.map (RenderImage.affineMap s t)) =
      (s * (RenderImage.vsum vs).1 + t.1 * vs.length,
        s * (RenderImage.vsum vs).2.1 + t.2.1 * vs.length,
        s * (RenderImage.vsum vs).2.2 + t.2.2 * vs.length) := by
  induction vs with
  | nil => simp [RenderImage.vsum]
  | cons v rest ih =>
    simp only [List.map_cons, RenderImage.vsum, ih, List.length_cons,
      RenderImage.affineMap, Prod.mk.injEq]
    refine ⟨?_, ?_, ?_⟩ <;> (push_cast; ring)

theorem vmean_affine (s : ℚ) (t : RenderImage.V3) (vs : List RenderImage.V3)
    (hne : vs ≠ []) :
    RenderImage.vmean (vs.map (RenderImage.affineMap s t)) =
      RenderImage.affineMap s t (RenderImage.vmean vs) := by
  have hn : (vs.length : ℚ) ≠ 0 := by
    rw [Nat.cast_ne_zero]
    intro h0
    exact hne (List.length_eq_zero.mp h0)
  simp only [RenderImage.vmean]
  rw [vsum_affine]
  simp only [List.length_map, RenderImage.affineMap, Prod.mk.injEq]
  refine ⟨?_, ?_, ?_⟩ <;> (field_simp; try ring)

theorem centered_affine (s : ℚ) (t : RenderImage.V3) (vs : List RenderImage.V3)
    (hne : vs ≠ []) :
    RenderImage.centered (vs.map (RenderImage.affineMap s t)) =
      (RenderImage.centered vs).map (fun v => (s * v.1, s * v.2.1, s * v.2.2)) := by
  simp only [RenderImage.centered]
  rw [vmean_affine s t vs hne, List.map_map, List.map_map]
  apply List.map_congr_left
  intro v hv
  simp only [Function.comp_apply, RenderImage.affineMap, Prod.mk.injEq]
  refine ⟨by ring, by ring, by ring⟩

theorem extent_scaled (s : ℚ) (hs : 0 ≤ s) (vs : List RenderImage.V3) (hne : vs ≠ [])
    (proj : RenderImage.V3 → ℚ)
    (hcomm : ∀ v : RenderImage.V3,
      proj (s * v.1, s * v.2.1, s * v.2.2) = s * proj v) :
    RenderImage.extent (vs.map (fun v => (s * v.1, s * v.2.1, s * v.2.2))) proj =
      s * RenderImage.extent vs proj := by
  unfold RenderImage.extent
  rw [List.map_map]
  have hfun : (proj ∘ fun v : RenderImage.V3 => (s * v.1, s * v.2.1, s * v.2.2)) =
      (fun x => s * x) ∘ proj := by
    funext v
    exact hcomm v
  rw [hfun, ← List.map_map]
  have hmono : Monotone (fun x : ℚ => s * x) := monotone_mul_left_of_nonneg hs
  have hne2 : vs.map proj ≠ [] := by
    intro h0
    exact hne (List.map_eq_nil_iff.mp h0)
  rw [lmax_map _ hmono _ hne2, lmin_map _ hmono _ hne2]
  ring

theorem maxDim_scaled (s : ℚ) (hs : 0 ≤ s) (vs : List RenderImage.V3) (hne : vs ≠ []) :
    RenderImage.maxDim (vs.map (fun v => (s * v.1, s * v.2.1, s * v.2.2))) =
      s * RenderImage.maxDim vs := by
  unfold RenderImage.maxDim
  have hmono : Monotone (fun x : ℚ => s * x) := monotone_mul_left_of_nonneg hs
  have hsm : ∀ a b : ℚ, s * max a b = max (s * a) (s * b) := fun a b => by
    simpa using hmono.map_max
  rw [extent_scaled s hs vs hne _ (fun v => rfl),
    extent_scaled s hs vs hne _ (fun v => rfl),
    extent_scaled s hs vs hne _ (fun v => rfl), hsm, hsm]

/-- Claim C10: the renderer normalizes every mesh by translating with the
negated mean vertex position and dividing by the maximum bounding-box
extent, so two meshes that differ only by a translation and a positive
uniform scale produce identical vertex arrays for rendering — the absolute
size and position of a Solid are not observable in its rendered views. -/
theorem renderer_normalization_invariant (vs : List RenderImage.V3) (s : ℚ)
    (t : RenderImage.V3) (hs : 0 < s) (hne : vs ≠ []) :
    RenderImage.normalizeVertices (vs.map (RenderImage.affineMap s t)) =
      RenderImage.normalizeVertices vs := by
  have hshne : RenderImage.centered vs ≠ [] := by
    simp only [RenderImage.centered]
    intro h0
    exact hne (List.map_eq_nil_iff.mp h0)
  simp only [RenderImage.normalizeVertices]
  rw [centered_affine s t vs hne, maxDim_scaled s (le_of_lt hs) _ hshne, List.map_map]
  apply List.map_congr_left
  intro v hv
  simp only [Function.comp_apply, Prod.mk.injEq]
  have hs0 : s ≠ 0 := ne_of_gt hs
  exact ⟨mul_div_mul_left _ _ hs0, mul_div_mul_left _ _ hs0, mul_div_mul_left _ _ hs0⟩

/-- Witness for C10 at a concrete mesh, scale `3` and translation
`(1, 2, 5)`. -/
theorem renderer_normalization_invariant_witness :
    RenderImage.normalizeVertices
        ([((0 : ℚ), (0 : ℚ), (0 : ℚ)), (2, 0, 0)].map
          (RenderImage.affineMap 3 (1, 2, 5))) =
      RenderImage.normalizeVertices [((0 : ℚ), (0 : ℚ), (0 : ℚ)), (2, 0, 0)] :=
  renderer_normalization_invariant [((0 : ℚ), (0 : ℚ), (0 : ℚ)), (2, 0, 0)] 3 (1, 2, 5)
    (by norm_num) (by simp)
